import Mathlib

/-!
A shallow embedding of the scrobble-aggregation core of the lastfmrobot
repository (src/api_requester.rs, src/utils.rs, src/consts.rs), together
with theorems settling the frozen claims about its specification.

Conventions of the embedding:
* `serde_json::Value` becomes the inductive `Json`; `value["k"]` becomes
  `Json.idx`, `value.get("k")` becomes `Json.get`, `as_str`/`as_u64`/
  `as_array`/`as_object` become `asStr`/`asU64`/`asArr`/`asObj`.
* Rust `u64`/`u32` string parsing (`str::parse`) becomes `parseU64?` /
  `parseU32?`: an optional leading plus sign, then one or more ASCII
  digits, rejecting overflow.
* `async` functions performing HTTP calls become functions over an
  explicit transport oracle `Nat → Except String Json` (the i-th call's
  response body, or a transport error).  Because Rust `async` code that
  `.await`s each call in sequence observes the whole response of call i
  before dispatching call i+1, such code is embedded so that the oracle is
  consulted for index i before index i+1 and the event trace records
  `dispatch i, complete i, dispatch (i+1), ...`; a `join!`-style fan-out
  would instead record all dispatches before the completions.
* Fallible Rust functions returning `Result<T, E>` become
  `Except String T`.
-/

/-- Model of `serde_json::Value`. Numbers are modelled as integers, which
covers every numeric field the embedded code reads. -/
inductive Json where
  | null
  | bool (b : Bool)
  | num (n : Int)
  | str (s : String)
  | arr (elems : List Json)
  | obj (fields : List (String × Json))

namespace Json

/-- `Value::get(key)`: `Some` only on objects holding the key. -/
def get (j : Json) (k : String) : Option Json :=
  match j with
  | .obj fields => fields.lookup k
  | _ => none

/-- `value[key]` via serde's `Index`: missing keys and non-objects give
`Null`. -/
def idx (j : Json) (k : String) : Json :=
  (j.get k).getD .null

/-- `Value::as_str`. -/
def asStr : Json → Option String
  | .str s => some s
  | _ => none

/-- `Value::as_array`. -/
def asArr : Json → Option (List Json)
  | .arr elems => some elems
  | _ => none

/-- `Value::as_object` (the object's fields, in order). -/
def asObj : Json → Option (List (String × Json))
  | .obj fields => some fields
  | _ => none

/-- `Value::as_u64`: a number representable as an unsigned 64-bit
integer. -/
def asU64 : Json → Option Nat
  | .num n => if 0 ≤ n ∧ n < 2 ^ 64 then some n.toNat else none
  | _ => none

end Json

/-- Digits of a decimal string as a natural number (helper for
`parseU64?`). -/
def digitsToNat (cs : List Char) : Nat :=
  cs.foldl (fun acc c => acc * 10 + (c.toNat - 48)) 0

/-- Rust's `str::parse::<uN>` core: optional leading plus sign, then a
non-empty run of ASCII digits, value below the bound (overflow is an
error). -/
def parseUBounded? (bound : Nat) (s : String) : Option Nat :=
  let cs :=
    match s.data with
    | '+' :: rest => rest
    | cs => cs
  if cs.isEmpty then none
  else if cs.all Char.isDigit then
    let n := digitsToNat cs
    if n < bound then some n else none
  else none

/-- `str::parse::<u64>`. -/
def parseU64? (s : String) : Option Nat := parseUBounded? (2 ^ 64) s

/-- `str::parse::<u32>`. -/
def parseU32? (s : String) : Option Nat := parseUBounded? (2 ^ 32) s

/-- `str::contains(pattern)` on character lists: `pat` occurs as a
contiguous substring. -/
def listContainsSub (pat : List Char) : List Char → Bool
  | [] => pat.isEmpty
  | c :: cs => pat.isPrefixOf (c :: cs) || listContainsSub pat cs

/-- `str::splitn(n, sep)`: at most `n` pieces, the last piece keeps the
remaining separators. -/
def splitnChars (sep : Char) : Nat → List Char → List (List Char)
  | 0, _ => []
  | 1, cs => [cs]
  | n + 2, cs =>
    match cs.span (fun c => c != sep) with
    | (l, []) => [l]
    | (l, _ :: r) => l :: splitnChars sep (n + 1) r

/-- `truncate_str` from src/utils.rs: keep at most `maxChars`
characters. -/
def truncate_str (cs : List Char) (maxChars : Nat) : List Char :=
  cs.take maxChars

/-- The `ApiType` enum of src/api_requester.rs. -/
inductive ApiType where
  | Lastfm
  | Librefm
  | Listenbrainz
deriving DecidableEq

/-- The `TimePeriod` enum of src/api_requester.rs. -/
inductive TimePeriod where
  | OneWeek
  | OneMonth
  | ThreeMonths
  | SixMonths
  | OneYear
  | AllTime
deriving DecidableEq

/-- The `EntryType` enum of src/api_requester.rs. -/
inductive EntryType where
  | Artist
  | Album
  | Track
deriving DecidableEq

/-- Mutable locals of the token loop in `parse_collage_arg`
(src/utils.rs). -/
structure CollageState where
  size : Nat
  period : TimePeriod
  entry_type : EntryType
  no_text : Bool
  size_found : Bool
  period_found : Bool
  entry_type_found : Bool
deriving DecidableEq

/-- The period-classification step of `parse_collage_arg`'s loop body
(src/utils.rs lines 359-401), reached when the token was consumed by
neither the entry-type nor the size check.  Mirrors the Rust operator
precedence: `is_month && first_digit_u == 1 || first_digit_u == 3 ||
first_digit_u == 6` parses as `(is_month && d == 1) || d == 3 ||
d == 6`. -/
def collagePeriodCheck (st : CollageState) (split fragment : List Char) :
    CollageState :=
  let is_day := fragment.contains 'd'
  let is_week := fragment.contains 'w'
  let is_month := fragment.contains 'm'
  let is_year := fragment.contains 'y'
  let is_all := fragment.contains 'o' || listContainsSub "all".data fragment
  -- split.get(0..1).unwrap_or_default().parse::<u32>(): succeeds exactly
  -- when the token's first character is a single-byte ASCII digit.
  let firstDigit : Option Nat :=
    match split with
    | [] => none
    | c :: _ => if c.isDigit then some (c.toNat - 48) else none
  match firstDigit with
  | some d =>
    let st :=
      if (is_day ∧ d = 7) ∨ (is_week ∧ d = 1) then
        { st with period := .OneWeek, period_found := true }
      else st
    let st :=
      if (is_month ∧ d = 1) ∨ d = 3 ∨ d = 6 then
        let p :=
          if d = 1 then TimePeriod.OneMonth
          else if d = 3 then TimePeriod.ThreeMonths
          else if d = 6 then TimePeriod.SixMonths
          else st.period
        { st with period := p, period_found := true }
      else st
    if is_year ∧ d = 1 then
      { st with period := .OneYear, period_found := true }
    else st
  | none =>
    if is_week || is_month || is_year || is_all then
      let p :=
        if is_week then TimePeriod.OneWeek
        else if is_month then TimePeriod.OneMonth
        else if is_year then TimePeriod.OneYear
        else TimePeriod.AllTime
      { st with period := p, period_found := true }
    else st

/-- The size-then-period part of `parse_collage_arg`'s loop body
(src/utils.rs lines 340-401), reached when the token was not consumed by
the entry-type check. -/
def collageSizePeriodStep (st : CollageState) (split : List Char) :
    CollageState :=
  let fragment := truncate_str split 4
  let sizeParsed : Option Nat :=
    if st.size_found then none
    else
      match parseU32? (String.mk ((splitnChars 'x' 2 fragment).headD [])) with
      | some s => if 0 < s ∧ s ≤ 7 then some s else none
      | none => none
  match sizeParsed with
  | some s => { st with size := s, size_found := true }
  | none =>
    if st.period_found then st
    else collagePeriodCheck st split fragment

/-- One iteration of the token loop of `parse_collage_arg`
(src/utils.rs lines 322-402): entry-type prefix check, then size
(`nxn` or `n`), then period. -/
def collageStep (st : CollageState) (split : List Char) : CollageState :=
  let entryMatch : Option EntryType :=
    if "artist".data.isPrefixOf split then some .Artist
    else if "album".data.isPrefixOf split then some .Album
    else if "track".data.isPrefixOf split then some .Track
    else none
  match entryMatch with
  | some e =>
    if st.entry_type_found then collageSizePeriodStep st split
    else { st with entry_type := e, entry_type_found := true }
  | none => collageSizePeriodStep st split

/-- `parse_collage_arg` from src/utils.rs: recover
`(size, period, entry_type, no_text)` from a free-text argument. -/
def parse_collage_arg (arg : String) :
    Nat × TimePeriod × EntryType × Bool :=
  let splits := splitnChars ' ' 4 arg.data
  let no_text :=
    splits.contains "notext".data || splits.contains "nonames".data ||
      splits.contains "clean".data
  let init : CollageState :=
    { size := 3, period := .AllTime, entry_type := .Album,
      no_text := no_text, size_found := false, period_found := false,
      entry_type_found := false }
  let final := splits.foldl collageStep init
  (final.size, final.period, final.entry_type, final.no_text)

/-- The `Track` entity of src/api_requester.rs. -/
structure Track where
  name : String
  album : Option String
  artist : String
  album_art_url : Option String
  date : Option Nat
  duration : Nat
  listeners : Nat
  playcount : Nat
  user_playcount : Nat
  user_loved : Bool
  now_playing : Bool
  tags : Option (List String)
deriving DecidableEq

/-- The `Album` entity of src/api_requester.rs. -/
structure Album where
  name : String
  artist : String
  album_art_url : Option String
  playcount : Nat
  listeners : Nat
  user_playcount : Nat
  tags : Option (List String)
deriving DecidableEq

/-- The `Artist` entity of src/api_requester.rs. -/
structure Artist where
  name : String
  playcount : Nat
  listeners : Nat
  user_playcount : Nat
  tags : Option (List String)
deriving DecidableEq

/-- The `ScrobbleUser` entity of src/api_requester.rs. -/
structure ScrobbleUser where
  username : String
  playcount : Nat
  artist_count : Nat
  album_count : Nat
  track_count : Nat
  profile_pic_url : Option String
  registered_date : Option Nat
deriving DecidableEq

/-- `consts::ERR_MSG` (src/consts.rs). -/
def ERR_MSG : String := "Oopsie doopsie, I did a fucky wucky!"

/-- `consts::USER_NOT_FOUND` (src/consts.rs). -/
def USER_NOT_FOUND : String := "No such user"

/-- `consts::PRIVATE_PROFILE` (src/consts.rs). -/
def PRIVATE_PROFILE : String :=
  "Your scrobbles are hidden. To use the bot, disable that at https://www.last.fm/settings/privacy"

/-- `Response200Middleware::handle` (src/api_requester.rs lines 128-152)
after the inner transport succeeded with a response of the given status
code.  `canonicalReason` stands for `StatusCode::canonical_reason`, the
http crate's fixed reason-phrase table (`none` when the code has no
canonical reason).  2xx responses pass through unchanged; every other
status becomes an error carrying a display message. -/
def response200_middleware (status : Nat) (canonicalReason : Option String) :
    Except String Nat :=
  if 200 ≤ status ∧ status < 300 then .ok status
  else
    let display_msg :=
      if status = 404 then USER_NOT_FOUND
      else if status = 403 then PRIVATE_PROFILE
      else canonicalReason.getD ERR_MSG
    .error display_msg

/-- `time_period_to_api_string` (src/api_requester.rs lines 684-703). -/
def time_period_to_api_string (duration : TimePeriod) (api_type : ApiType) :
    String :=
  match api_type with
  | .Lastfm | .Librefm =>
    match duration with
    | .OneWeek => "7day"
    | .OneMonth => "1month"
    | .ThreeMonths => "3month"
    | .SixMonths => "6month"
    | .OneYear => "12month"
    | .AllTime => "overall"
  | .Listenbrainz =>
    match duration with
    | .OneWeek => "week"
    | .OneMonth => "month"
    | .ThreeMonths => "quarter"
    | .SixMonths => "half_yearly"
    | .OneYear => "year"
    | .AllTime => "all_time"

/-- `get_biggest_lastfm_image` (src/api_requester.rs lines 206-223): last
entry of the `image` array, with the known placeholder fingerprint
treated as no art. -/
def get_biggest_lastfm_image (json_value : Json) : Option String :=
  let url :=
    (((json_value.idx "image").asArr).bind fun images =>
      (images.getLast?).bind fun image => (image.idx "#text").asStr).getD ""
  if url.isEmpty ||
      listContainsSub "2a96cbd8b46e442fc41c2b86b821562f".data url.data then
    none
  else some url

/-- The pure parsing part of `fetch_lastfm_track` (src/api_requester.rs
lines 245-315): everything after the response body has been decoded to
JSON. -/
def fetch_lastfm_track_parse (json : Json) : Except String Track :=
  match (json.idx "track").asObj with
  | none => .error "Track not found."
  | some track_json =>
    let tidx := fun (k : String) => ((track_json.lookup k).getD Json.null)
    let name := ((tidx "name").asStr.getD "")
    let album :=
      match track_json.lookup "album" with
      | some album_obj =>
        let x := (album_obj.idx "title").asStr.getD ""
        if !x.isEmpty then some x else none
      | none => none
    let artist := (((tidx "artist").idx "name").asStr.getD "")
    let listeners := (parseU64? ((tidx "listeners").asStr.getD "")).getD 0
    let playcount := (parseU64? ((tidx "playcount").asStr.getD "")).getD 0
    let duration := (parseU64? ((tidx "duration").asStr.getD "")).getD 0
    let user_playcount :=
      match track_json.lookup "userplaycount" with
      | some v => (parseU64? (v.asStr.getD "")).getD 0
      | none => 0
    let user_loved :=
      match track_json.lookup "userloved" with
      | some v => (v.asStr.getD "") == "1"
      | none => false
    let tags :=
      ((tidx "toptags").get "tag").map fun x =>
        ((x.asArr.getD []).map fun t => (t.idx "name").asStr.getD "").filter
          (fun s => !s.isEmpty)
    .ok { name := name, album := album, artist := artist,
          listeners := listeners, playcount := playcount,
          user_playcount := user_playcount, user_loved := user_loved,
          duration := duration, album_art_url := none, date := none,
          now_playing := false, tags := tags }

/-- `parse_listenbrainz_tracks_np` (src/api_requester.rs lines 451-501).
Like the Rust function, it returns a `Result` but never an error: a
non-array argument iterates as empty. -/
def parse_listenbrainz_tracks_np (json_arr : Json) (now_playing : Bool) :
    Except String (List Track) :=
  let tracks :=
    (json_arr.asArr.getD []).map fun track_json =>
      let track_metadata :=
        match track_json.get "track_metadata" with
        | some m => m
        | none => track_json
      let artist := (track_metadata.idx "artist_name").asStr.getD ""
      let album := (track_metadata.idx "release_name").asStr
      let name := (track_metadata.idx "track_name").asStr.getD ""
      let album_art_url :=
        ((track_metadata.idx "release_mbid").asStr).map fun mbid =>
          "https://coverartarchive.org/release/" ++ mbid ++ "/front-250"
      let user_playcount := ((track_metadata.idx "listen_count").asU64).getD 0
      let date := (track_json.idx "listened_at").asU64
      { name := name, album := album, artist := artist,
        album_art_url := album_art_url, date := date, user_loved := false,
        duration := 0, listeners := 0, playcount := 0,
        user_playcount := user_playcount, now_playing := now_playing,
        tags := none : Track }
  .ok tracks

/-- `parse_listenbrainz_tracks` (src/api_requester.rs lines 446-450). -/
def parse_listenbrainz_tracks (json_arr : Json) :
    Except String (List Track) :=
  parse_listenbrainz_tracks_np json_arr false

/-- `Result::into_iter().flatten()` over a fallible list: iterates the
`ok` list and silently discards an `error` (as the Rust adapters do after
`.ok_or(...)`). -/
def exceptListElems (r : Except String (List Json)) : List Json :=
  match r with
  | .ok elems => elems
  | .error _ => []

/-- `Option::ok_or(message)` as used on `as_array()` results. -/
def arrOkOr (v : Json) (msg : String) : Except String (List Json) :=
  match v.asArr with
  | some elems => .ok elems
  | none => .error msg

/-- The per-album map of the Lastfm/Librefm branch of `fetch_albums`
(src/api_requester.rs lines 782-804). -/
def lastfm_top_album_of_json (album_json : Json) : Album :=
  let artist := ((album_json.idx "artist").idx "name").asStr.getD ""
  let name := (album_json.idx "name").asStr.getD ""
  let album_art_url := get_biggest_lastfm_image album_json
  let user_playcount :=
    (parseU64? ((album_json.idx "playcount").asStr.getD "")).getD 0
  { name := name, artist := artist, album_art_url := album_art_url,
    listeners := 0, playcount := 0, user_playcount := user_playcount,
    tags := none }

/-- The pure parsing part of the Listenbrainz branch of `fetch_albums`
(src/api_requester.rs lines 726-759).  NOTE the faithful modelling of the
source: `.ok_or(...)` builds an error value, but the following
`.into_iter().flatten()` iterates only the ok case and discards the
error, so the function always returns `ok`. -/
def fetch_albums_lb_parse (json : Json) : Except String (List Album) :=
  let arrRes :=
    arrOkOr ((json.idx "payload").idx "releases")
      "Invalid JSON format: payload.releases is not an array"
  let albums :=
    (exceptListElems arrRes).map fun album_json =>
      let artist := (album_json.idx "artist_name").asStr.getD ""
      let name := (album_json.idx "release_name").asStr.getD ""
      let album_art_url :=
        ((album_json.idx "release_mbid").asStr).map fun mbid =>
          "https://coverartarchive.org/release/" ++ mbid ++ "/front-500"
      let user_playcount := ((album_json.idx "listen_count").asU64).getD 0
      { name := name, artist := artist, album_art_url := album_art_url,
        listeners := 0, playcount := 0, user_playcount := user_playcount,
        tags := none : Album }
  .ok albums

/-- The pure parsing part of the Lastfm/Librefm branch of `fetch_albums`
(src/api_requester.rs lines 775-807); same dead-`.ok_or` structure as the
Listenbrainz branch. -/
def fetch_albums_lastfm_parse (json : Json) : Except String (List Album) :=
  let arrRes :=
    arrOkOr ((json.idx "topalbums").idx "album")
      "Invalid JSON format: topalbums.album is not an array"
  .ok ((exceptListElems arrRes).map lastfm_top_album_of_json)

/-- The pure parsing part of the Listenbrainz branch of `fetch_artists`
(src/api_requester.rs lines 833-856). -/
def fetch_artists_lb_parse (json : Json) : Except String (List Artist) :=
  let arrRes :=
    arrOkOr ((json.idx "payload").idx "artists")
      "Invalid JSON format: payload.artists is not an array"
  let artists :=
    (exceptListElems arrRes).map fun artists_json =>
      { name := (artists_json.idx "artist_name").asStr.getD "",
        listeners := 0, playcount := 0,
        user_playcount := ((artists_json.idx "listen_count").asU64).getD 0,
        tags := none : Artist }
  .ok artists

/-- The pure parsing part of the Lastfm/Librefm branch of `fetch_artists`
(src/api_requester.rs lines 872-895). -/
def fetch_artists_lastfm_parse (json : Json) : Except String (List Artist) :=
  let arrRes :=
    arrOkOr ((json.idx "topartists").idx "artist")
      "Invalid JSON format: topartists.artist is not an array"
  let artists :=
    (exceptListElems arrRes).map fun artist_json =>
      { name := (artist_json.idx "name").asStr.getD "",
        listeners := 0, playcount := 0,
        user_playcount :=
          (parseU64? ((artist_json.idx "playcount").asStr.getD "")).getD 0,
        tags := none : Artist }
  .ok artists

/-- The pure parsing part of the Listenbrainz branch of `fetch_tracks`
(src/api_requester.rs lines 923-926): delegates to
`parse_listenbrainz_tracks` on `payload.recordings`. -/
def fetch_tracks_lb_parse (json : Json) : Except String (List Track) :=
  parse_listenbrainz_tracks ((json.idx "payload").idx "recordings")

/-- The pure parsing part of the Lastfm/Librefm branch of `fetch_tracks`
(src/api_requester.rs lines 942-978); same dead-`.ok_or` structure as
`fetch_albums`. -/
def fetch_tracks_lastfm_parse (json : Json) : Except String (List Track) :=
  let arrRes :=
    arrOkOr ((json.idx "toptracks").idx "track")
      "Invalid JSON format: toptracks.track is not an array"
  let tracks :=
    (exceptListElems arrRes).map fun track_json =>
      { name := (track_json.idx "name").asStr.getD "",
        album := none,
        artist := ((track_json.idx "artist").idx "name").asStr.getD "",
        album_art_url := none, date := none, duration := 0,
        listeners := 0, playcount := 0,
        user_playcount :=
          (parseU64? ((track_json.idx "playcount").asStr.getD "")).getD 0,
        now_playing := false, user_loved := false, tags := none : Track }
  .ok tracks

/-- Transport events observed by a run of an embedded `async` fetch:
request `i` is handed to the HTTP client (`dispatch i`), or its `.await`
returns (`complete i`). -/
inductive TransportEv where
  | dispatch (i : Nat)
  | complete (i : Nat)
deriving DecidableEq

/-- A transport oracle: the body of the i-th outbound call of one
operation, or the transport error its `.await` produced. -/
def Oracle : Type := Nat → Except String Json

/-- The Listenbrainz branch of `fetch_recent_tracks` (src/api_requester.rs
lines 576-604): probe `playing-now` (call 0); if the probe's track list is
non-empty and `actual_limit == 1`, return it alone; otherwise issue the
`listens?count=3` history call (call 1) and append its tracks.  The first
component counts the transport calls that were issued. -/
def fetch_recent_tracks_lb (oracle : Oracle) (actual_limit : Nat) :
    Nat × Except String (List Track) :=
  match oracle 0 with
  | .error e => (1, .error e)
  | .ok json =>
    match parse_listenbrainz_tracks_np ((json.idx "payload").idx "listens")
        true with
    | .error e => (1, .error e)
    | .ok all_tracks =>
      if !all_tracks.isEmpty ∧ actual_limit = 1 then (1, .ok all_tracks)
      else
        match oracle 1 with
        | .error e => (2, .error e)
        | .ok json2 =>
          match parse_listenbrainz_tracks
              ((json2.idx "payload").idx "listens") with
          | .error e => (2, .error e)
          | .ok tracks => (2, .ok (all_tracks ++ tracks))

/-- The Listenbrainz branch of `fetch_user_info` (src/api_requester.rs
lines 991-1028).  The four sub-requests (listen count, artist stats,
release stats, recording stats) appear in the source as four successive
`CLIENT.get(..).send().await?` statements, so each call's response is
observed before the next call is dispatched; the event trace therefore
interleaves `dispatch i, complete i` pairs sequentially (a `join!`-style
fan-out would dispatch all four before any completion).  Field note from
the source: `total_release_count` is stored in `track_count` and
`total_recording_count` in `album_count`. -/
def fetch_user_info_lb (oracle : Oracle) (username : String) :
    List TransportEv × Except String ScrobbleUser :=
  let e0 := [TransportEv.dispatch 0, TransportEv.complete 0]
  match oracle 0 with
  | .error e => (e0, .error e)
  | .ok j0 =>
    let playcount := (((j0.idx "payload").idx "count").asU64).getD 0
    let e1 := e0 ++ [TransportEv.dispatch 1, TransportEv.complete 1]
    match oracle 1 with
    | .error e => (e1, .error e)
    | .ok j1 =>
      let artist_count :=
        (((j1.idx "payload").idx "total_artist_count").asU64).getD 0
      let e2 := e1 ++ [TransportEv.dispatch 2, TransportEv.complete 2]
      match oracle 2 with
      | .error e => (e2, .error e)
      | .ok j2 =>
        let track_count :=
          (((j2.idx "payload").idx "total_release_count").asU64).getD 0
        let e3 := e2 ++ [TransportEv.dispatch 3, TransportEv.complete 3]
        match oracle 3 with
        | .error e => (e3, .error e)
        | .ok j3 =>
          let album_count :=
            (((j3.idx "payload").idx "total_recording_count").asU64).getD 0
          (e3, .ok { username := username, playcount := playcount,
                     artist_count := artist_count,
                     track_count := track_count,
                     album_count := album_count,
                     profile_pic_url := none, registered_date := none })

/-- An always-successful transport oracle serving four fixed response
bodies. -/
def mkOracle4 (j0 j1 j2 j3 : Json) : Oracle := fun i =>
  match i with
  | 0 => .ok j0
  | 1 => .ok j1
  | 2 => .ok j2
  | _ => .ok j3

/-- Position of the first occurrence of an event in a trace (the trace
length when absent). -/
def evIdx (e : TransportEv) (trace : List TransportEv) : Nat :=
  match trace with
  | [] => 0
  | x :: rest => if x = e then 0 else evIdx e rest + 1

/-- "Concurrent dispatch" for a four-call operation: every sub-request is
dispatched before the preceding sub-request completes. -/
def concurrentDispatch (trace : List TransportEv) : Bool :=
  (List.range 3).all fun i =>
    evIdx (TransportEv.dispatch (i + 1)) trace <
      evIdx (TransportEv.complete i) trace

/-- Fixture: a `playing-now` response body with one listen. -/
def lbPlayingNowFixture : Json :=
  Json.obj [("payload", Json.obj [("listens", Json.arr [Json.obj
    [("track_metadata", Json.obj
      [("track_name", Json.str "Song"), ("artist_name", Json.str "Band")])]])])]

/-- Fixture: the normalized track produced from
`lbPlayingNowFixture`. -/
def lbPlayingNowTrack : Track :=
  { name := "Song", album := none, artist := "Band", album_art_url := none,
    date := none, duration := 0, listeners := 0, playcount := 0,
    user_playcount := 0, user_loved := false, now_playing := true,
    tags := none }

/-- C6: for every pair of the three providers and the six `TimePeriod`
values, `time_period_to_api_string` is total (a total Lean function by
construction: the match is exhaustive, so no panic is possible) and
returns a non-empty string. -/
theorem c6_time_period_to_api_string_nonempty :
    ∀ (d : TimePeriod) (a : ApiType),
      0 < (time_period_to_api_string d a).length := by
  intro d a
  cases d <;> cases a <;> decide

/-- C4: the success-code middleware passes 2xx responses through
unchanged, maps 404 to the "no such user" display string, 403 to the
private-profile display string, and every other non-2xx status to the
HTTP canonical reason phrase, or the generic fallback when none
exists. -/
theorem c4_response200_middleware_cases :
    ∀ (status : Nat) (reason : Option String),
      (200 ≤ status → status < 300 →
        response200_middleware status reason = .ok status)
      ∧ response200_middleware 404 reason = .error USER_NOT_FOUND
      ∧ response200_middleware 403 reason = .error PRIVATE_PROFILE
      ∧ (status < 200 ∨ 300 ≤ status → status ≠ 404 → status ≠ 403 →
          response200_middleware status reason
            = .error (reason.getD ERR_MSG)) := by
  intro status reason
  refine ⟨?_, ?_, ?_, ?_⟩
  · intro h1 h2
    simp [response200_middleware, h1, h2]
  · simp [response200_middleware]
  · simp [response200_middleware]
  · intro hrange h404 h403
    have hns : ¬(200 ≤ status ∧ status < 300) := by omega
    simp [response200_middleware, hns, h404, h403]

/-- Witness for C4: a 500 response with canonical reason phrase
"Internal Server Error" is converted to a failure carrying exactly that
phrase. -/
theorem c4_response200_middleware_cases_witness :
    response200_middleware 500 (some "Internal Server Error")
      = .error "Internal Server Error" :=
  (c4_response200_middleware_cases 500 (some "Internal Server Error")).2.2.2
    (Or.inr (by omega)) (by omega) (by omega)

/-- C8: the spec's scenario table for `parse_collage_arg`:
"clean 4 alltime", "artist", "3x3" and "" produce the stated
(size, period, entry type, clean) tuples. -/
theorem c8_parse_collage_arg_scenarios :
    parse_collage_arg "clean 4 alltime"
      = (4, TimePeriod.AllTime, EntryType.Album, true)
    ∧ parse_collage_arg "artist"
      = (3, TimePeriod.AllTime, EntryType.Artist, false)
    ∧ parse_collage_arg "3x3"
      = (3, TimePeriod.AllTime, EntryType.Album, false)
    ∧ parse_collage_arg ""
      = (3, TimePeriod.AllTime, EntryType.Album, false) := by
  refine ⟨?_, ?_, ?_, ?_⟩ <;> rfl

/-- C3, counterexample: the claim says a digit-leading token outside the
six-entry table (for example a bare "3" or "6", or "3y") leaves the
period unclaimed (so the default AllTime would remain); on the code,
those tokens claim the period as ThreeMonths/SixMonths, because Rust
parses `is_month && first_digit_u == 1 || first_digit_u == 3 ||
first_digit_u == 6` as `(is_month && d == 1) || d == 3 || d == 6`. -/
theorem c3_counterexample_bare_three :
    ((parse_collage_arg "4 3").2.1 = TimePeriod.AllTime) = False
    ∧ ((parse_collage_arg "4 3y").2.1 = TimePeriod.AllTime) = False
    ∧ ((parse_collage_arg "4 6").2.1 = TimePeriod.AllTime) = False :=
  ⟨eq_false (by decide), eq_false (by decide), eq_false (by decide)⟩

/-- C3, amended (universal): for every digit-leading token, the period
classification step applies three checks in order with later matches
overriding earlier ones, so the net result is: 'y' in the 4-character
fragment with leading digit 1 → OneYear; otherwise 'm' with leading 1 →
OneMonth, or — regardless of letters — leading 3 → ThreeMonths and
leading 6 → SixMonths; otherwise 'd' with leading 7 or 'w' with leading
1 → OneWeek; a digit-leading token matching none of these checks leaves
the whole loop state (period and claimed-flag) unchanged.  In
particular, overlapping tokens follow the override order ("1wm" gives
OneMonth although the 'w'+1 check also matches; "1my" gives OneYear). -/
theorem c3_period_classification_amended
    (st : CollageState) (c : Char) (rest : List Char)
    (hd : c.isDigit = true) :
    collagePeriodCheck st (c :: rest) (truncate_str (c :: rest) 4)
      = (let fragment := truncate_str (c :: rest) 4
         let d := c.toNat - 48
         if fragment.contains 'y' ∧ d = 1 then
           { st with period := .OneYear, period_found := true }
         else if (fragment.contains 'm' ∧ d = 1) ∨ d = 3 ∨ d = 6 then
           { st with
             period :=
               if d = 1 then TimePeriod.OneMonth
               else if d = 3 then TimePeriod.ThreeMonths
               else TimePeriod.SixMonths,
             period_found := true }
         else if (fragment.contains 'd' ∧ d = 7)
             ∨ (fragment.contains 'w' ∧ d = 1) then
           { st with period := .OneWeek, period_found := true }
         else st) := by
  obtain ⟨sz, p, e, nt, sf, pf, ef⟩ := st
  by_cases hcy : (truncate_str (c :: rest) 4).contains 'y' = true <;>
    by_cases hcm : (truncate_str (c :: rest) 4).contains 'm' = true <;>
    by_cases hcd : (truncate_str (c :: rest) 4).contains 'd' = true <;>
    by_cases hcw : (truncate_str (c :: rest) 4).contains 'w' = true <;>
    by_cases hd1 : c.toNat - 48 = 1 <;>
    by_cases hd3 : c.toNat - 48 = 3 <;>
    by_cases hd6 : c.toNat - 48 = 6 <;>
    by_cases hd7 : c.toNat - 48 = 7 <;>
    simp_all [collagePeriodCheck, hd]

/-- Witness for C3's amended statement: the token "3y" (digit-leading,
first digit 3) applied to a state whose size slot is claimed and period
slot unclaimed is classified as ThreeMonths with the period slot
claimed. -/
theorem c3_period_classification_amended_witness :
    collagePeriodCheck
        ⟨4, TimePeriod.AllTime, EntryType.Album, false, true, false, false⟩
        ('3' :: ['y']) (truncate_str ('3' :: ['y']) 4)
      = ⟨4, TimePeriod.ThreeMonths, EntryType.Album, false, true, true,
          false⟩ :=
  (c3_period_classification_amended
    ⟨4, TimePeriod.AllTime, EntryType.Album, false, true, false, false⟩
    '3' ['y'] rfl).trans rfl

/-- C10: the flag tokens "notext" and "nonames" are themselves classified
as period tokens (their letter 'o' satisfies the `is_all` keyword check),
setting the period to AllTime and claiming the period slot, while "clean"
leaves the loop state untouched; hence in "notext 1m" the later genuine
period token is ignored and the result is clean with period AllTime,
whereas "clean 1m" keeps OneMonth. -/
theorem c10_flag_tokens_claim_period :
    (∀ (sz : Nat) (p : TimePeriod) (e : EntryType) (nt sf ef : Bool),
      collageStep ⟨sz, p, e, nt, sf, false, ef⟩ "notext".data
        = ⟨sz, .AllTime, e, nt, sf, true, ef⟩)
    ∧ (∀ (sz : Nat) (p : TimePeriod) (e : EntryType) (nt sf ef : Bool),
      collageStep ⟨sz, p, e, nt, sf, false, ef⟩ "nonames".data
        = ⟨sz, .AllTime, e, nt, sf, true, ef⟩)
    ∧ (∀ (sz : Nat) (p : TimePeriod) (e : EntryType) (nt sf pf ef : Bool),
      collageStep ⟨sz, p, e, nt, sf, pf, ef⟩ "clean".data
        = ⟨sz, p, e, nt, sf, pf, ef⟩)
    ∧ parse_collage_arg "notext 1m"
      = (3, TimePeriod.AllTime, EntryType.Album, true)
    ∧ parse_collage_arg "nonames 1y"
      = (3, TimePeriod.AllTime, EntryType.Album, true)
    ∧ parse_collage_arg "clean 1m"
      = (3, TimePeriod.OneMonth, EntryType.Album, true) := by
  refine ⟨?_, ?_, ?_, rfl, rfl, rfl⟩
  · intro sz p e nt sf ef
    cases sf <;> cases ef <;> rfl
  · intro sz p e nt sf ef
    cases sf <;> cases ef <;> rfl
  · intro sz p e nt sf pf ef
    cases sf <;> cases pf <;> cases ef <;> rfl

/-- C7: numeric fields that the provider encodes as JSON strings are
parsed best-effort with default zero: "42" yields 42; an empty,
non-numeric or absent field yields 0; and the parse of the whole entity
succeeds in every case (shown on the track-detail adapter and the
top-albums adapter, the two cited sites). -/
theorem c7_numeric_string_default_zero :
    ∀ (fs : List (String × Json)),
      (fetch_lastfm_track_parse (Json.obj [("track", Json.obj fs)])).isOk
        = true
      ∧ (fetch_lastfm_track_parse
            (Json.obj [("track",
              Json.obj (("playcount", Json.str "42") :: fs))])).map
            Track.playcount = .ok 42
      ∧ (fetch_lastfm_track_parse
            (Json.obj [("track",
              Json.obj (("playcount", Json.str "") :: fs))])).map
            Track.playcount = .ok 0
      ∧ (fetch_lastfm_track_parse
            (Json.obj [("track",
              Json.obj (("playcount", Json.str "twelve") :: fs))])).map
            Track.playcount = .ok 0
      ∧ (fs.lookup "playcount" = none →
          (fetch_lastfm_track_parse (Json.obj [("track", Json.obj fs)])).map
            Track.playcount = .ok 0)
      ∧ (lastfm_top_album_of_json
            (Json.obj (("playcount", Json.str "42") :: fs))).user_playcount
          = 42
      ∧ (lastfm_top_album_of_json
            (Json.obj (("playcount", Json.str "") :: fs))).user_playcount
          = 0
      ∧ (fs.lookup "playcount" = none →
          (lastfm_top_album_of_json (Json.obj fs)).user_playcount = 0) := by
  intro fs
  refine ⟨rfl, rfl, rfl, rfl, ?_, rfl, rfl, ?_⟩
  · intro h
    show Except.ok
        ((parseU64?
          (((List.lookup "playcount" fs).getD Json.null).asStr.getD "")).getD 0)
        = Except.ok 0
    rw [h]
    rfl
  · intro h
    show (parseU64?
        (((List.lookup "playcount" fs).getD Json.null).asStr.getD "")).getD 0
        = 0
    rw [h]
    rfl

/-- Witness for C7: with an otherwise empty track object (playcount
absent), the parse succeeds and the playcount defaults to 0. -/
theorem c7_numeric_string_default_zero_witness :
    (fetch_lastfm_track_parse (Json.obj [("track", Json.obj [])])).map
      Track.playcount = .ok 0 :=
  (c7_numeric_string_default_zero []).2.2.2.2.1 rfl

/-- C1 (code evaluated at the failing input): when a 200 response body
lacks the required top-level array, every top-entity list fetch returns a
*successful empty list* instead of aborting — the error value built by
`.ok_or("Invalid JSON format: ...")` is discarded by the following
`.into_iter().flatten()` in all six adapter branches. -/
theorem c1_missing_array_yields_ok_empty :
    fetch_albums_lb_parse (Json.obj []) = .ok []
    ∧ fetch_albums_lastfm_parse (Json.obj []) = .ok []
    ∧ fetch_artists_lb_parse (Json.obj []) = .ok []
    ∧ fetch_artists_lastfm_parse (Json.obj []) = .ok []
    ∧ fetch_tracks_lb_parse (Json.obj []) = .ok []
    ∧ fetch_tracks_lastfm_parse (Json.obj []) = .ok [] :=
  ⟨rfl, rfl, rfl, rfl, rfl, rfl⟩

/-- C5: the Listenbrainz recent-tracks protocol: the `playing-now` probe
is issued first; if its track list is non-empty and the caller asked for
`actual_limit = 1`, the probe result is returned alone after exactly one
transport call; otherwise the history call is issued as the second
transport call and the result is the currently-playing entries followed
by the history entries. -/
theorem c5_lb_recent_tracks_protocol (oracle : Oracle) (limit : Nat)
    (j1 : Json) (t1 : List Track)
    (h0 : oracle 0 = .ok j1)
    (hp : parse_listenbrainz_tracks_np ((j1.idx "payload").idx "listens") true
            = .ok t1) :
    (t1 ≠ [] → limit = 1 →
      fetch_recent_tracks_lb oracle limit = (1, .ok t1))
    ∧ (∀ (j2 : Json) (t2 : List Track),
        oracle 1 = .ok j2 →
        parse_listenbrainz_tracks ((j2.idx "payload").idx "listens") = .ok t2 →
        t1 = [] ∨ limit ≠ 1 →
        fetch_recent_tracks_lb oracle limit = (2, .ok (t1 ++ t2))) := by
  constructor
  · intro hne hl
    cases t1 with
    | nil => exact absurd rfl hne
    | cons a as => simp [fetch_recent_tracks_lb, h0, hp, hl]
  · intro j2 t2 h1 hp2 hor
    rcases hor with h | h
    · subst h
      simp [fetch_recent_tracks_lb, h0, hp, h1, hp2]
    · simp [fetch_recent_tracks_lb, h0, hp, h1, hp2, h]

/-- Witness for C5: a playing-now probe with one listen and
`actual_limit = 1` returns the probe's track after a single transport
call. -/
theorem c5_lb_recent_tracks_protocol_witness :
    fetch_recent_tracks_lb (fun _ => .ok lbPlayingNowFixture) 1
      = (1, .ok [lbPlayingNowTrack]) :=
  (c5_lb_recent_tracks_protocol (fun _ => .ok lbPlayingNowFixture) 1
      lbPlayingNowFixture [lbPlayingNowTrack] rfl rfl).1
    (by simp) rfl

/-- C2, counterexample: on a concrete run in which every transport call
succeeds, the Listenbrainz `fetch_user_info` trace completes each
sub-request before dispatching the next, so the claimed concurrent
dispatch (every sub-request dispatched before its predecessor completes)
is false. -/
theorem c2_counterexample_sequential_trace :
    concurrentDispatch
      (fetch_user_info_lb
        (mkOracle4 (Json.obj []) (Json.obj []) (Json.obj []) (Json.obj []))
        "user").1 = false := rfl

/-- C2, amended: the Listenbrainz `fetch_user_info` issues its four
sub-requests sequentially — each `.await`ed to completion before the next
is dispatched — and combines all four results before returning. -/
theorem c2_lb_user_info_sequential (oracle : Oracle) (username : String)
    (j0 j1 j2 j3 : Json)
    (h0 : oracle 0 = .ok j0) (h1 : oracle 1 = .ok j1)
    (h2 : oracle 2 = .ok j2) (h3 : oracle 3 = .ok j3) :
    (fetch_user_info_lb oracle username).1
      = [TransportEv.dispatch 0, TransportEv.complete 0,
         TransportEv.dispatch 1, TransportEv.complete 1,
         TransportEv.dispatch 2, TransportEv.complete 2,
         TransportEv.dispatch 3, TransportEv.complete 3]
    ∧ (fetch_user_info_lb oracle username).2
      = .ok { username := username,
              playcount := (((j0.idx "payload").idx "count").asU64).getD 0,
              artist_count :=
                (((j1.idx "payload").idx "total_artist_count").asU64).getD 0,
              track_count :=
                (((j2.idx "payload").idx "total_release_count").asU64).getD 0,
              album_count :=
                (((j3.idx "payload").idx "total_recording_count").asU64).getD 0,
              profile_pic_url := none, registered_date := none } := by
  constructor <;> simp [fetch_user_info_lb, h0, h1, h2, h3]

/-- Witness for C2's amended statement: the sequential trace on a
concrete all-successful oracle. -/
theorem c2_lb_user_info_sequential_witness :
    (fetch_user_info_lb
      (mkOracle4 (Json.obj []) (Json.obj []) (Json.obj []) (Json.obj []))
      "user").1
      = [TransportEv.dispatch 0, TransportEv.complete 0,
         TransportEv.dispatch 1, TransportEv.complete 1,
         TransportEv.dispatch 2, TransportEv.complete 2,
         TransportEv.dispatch 3, TransportEv.complete 3] :=
  (c2_lb_user_info_sequential
    (mkOracle4 (Json.obj []) (Json.obj []) (Json.obj []) (Json.obj []))
    "user" (Json.obj []) (Json.obj []) (Json.obj []) (Json.obj [])
    rfl rfl rfl rfl).1

/-- C9: the Listenbrainz `fetch_user_info` stores the releases endpoint's
`total_release_count` in the `track_count` field and the recordings
endpoint's `total_recording_count` in the `album_count` field — the
release and recording totals land in swapped fields relative to
release=album, recording=track. -/
theorem c9_lb_user_info_swapped_counts (j0 j1 j2 j3 : Json) (u : String) :
    ((fetch_user_info_lb (mkOracle4 j0 j1 j2 j3) u).2.map
        ScrobbleUser.track_count)
      = .ok ((((j2.idx "payload").idx "total_release_count").asU64).getD 0)
    ∧ ((fetch_user_info_lb (mkOracle4 j0 j1 j2 j3) u).2.map
        ScrobbleUser.album_count)
      = .ok ((((j3.idx "payload").idx "total_recording_count").asU64).getD 0) :=
  ⟨rfl, rfl⟩
